import Mathlib

/-
Verification of the IPN hemorrhage risk calculator.

The repository has two variants of the same single-page app:
  * streamlit_app.py — the full variant: clamps the raw class-1 probability to
    [0,1], buckets the percent with hardcoded thresholds 10/50, validates every
    input through widget constraints, handles a missing model artifact with a
    try/except, and writes a hand-rolled single-page PDF report.
  * APP.py — a cruder variant: loads the model at module import time with no
    exception handling, leaves its three numeric inputs unbounded, and reports
    the raw model output with no clamp.

Percents and probabilities are embedded as rationals (the Python floats are
used only for comparisons against the decimal constants 0, 1, 10, 50, 100, and
the clamp; no float-specific behaviour is exercised).  Text is embedded as
Lean Strings; the PDF byte strings are latin-1, where the byte length equals
the character count, so String.length models Python's len(...) after
.encode("latin-1").
-/

/-- Risk bands produced by the categorization branch of streamlit_app.py. -/
inductive Category where
  | Low
  | Intermediate
  | High
deriving DecidableEq, Repr

/-- Rank of a risk band in the order Low < Intermediate < High. -/
def catRank : Category → ℕ
  | .Low => 0
  | .Intermediate => 1
  | .High => 2

/-- The hardcoded categorization branch of streamlit_app.py (lines 347-368):
`if pct < 10: "Low" elif pct < 50: "Intermediate" else: "High"`. -/
def risk_cat (pct : ℚ) : Category :=
  if pct < 10 then .Low
  else if pct < 50 then .Intermediate
  else .High

/-- Modelled from the spec: the source hardcodes the thresholds 10 and 50 in
the categorization branch; spec §4.3 presents the same branch with the
thresholds as configuration, `categorize(percent, low_threshold,
high_threshold)`.  The branch structure is the source's. -/
def categorize (pct lo hi : ℚ) : Category :=
  if pct < lo then .Low
  else if pct < hi then .Intermediate
  else .High

/-- The configuration-error value of spec §7. -/
inductive ConfigError where
  | configurationError
deriving DecidableEq, Repr

/-- Modelled from the spec: no threshold-validation code exists in the source
(the thresholds are the literals 10 and 50); spec §4.3/§7 require the
precondition 0 ≤ lo ≤ hi ≤ 100 to be checked and a ConfigurationError
reported to the caller, never silently corrected. -/
def validateThresholds (lo hi : ℚ) : Except ConfigError (ℚ × ℚ) :=
  if 0 ≤ lo ∧ lo ≤ hi ∧ hi ≤ 100 then .ok (lo, hi)
  else .error .configurationError

/-- Modelled from the spec: categorization behind the threshold check —
thresholds are validated before any categorization is performed. -/
def categorizeChecked (pct lo hi : ℚ) : Except ConfigError Category :=
  (validateThresholds lo hi).map fun t => categorize pct t.1 t.2

/-- The defensive clamp of streamlit_app.py line 343:
`prob = max(0.0, min(prob, 1.0))`. -/
def clampProb (r : ℚ) : ℚ := max 0 (min r 1)

/-- streamlit_app.py line 344: `pct = prob * 100` applied to the clamped
probability. -/
def streamlitPct (r : ℚ) : ℚ := clampProb r * 100

/-- APP.py line 42/45: the value the app reports is
`stacking_regressor.predict(input_array)[0]` displayed directly — the raw
model output, with no clamp. -/
def appReported (r : ℚ) : ℚ := r

/-- The categorization branch of the source is the categorize function at the
hardcoded thresholds 10 and 50. -/
theorem risk_cat_eq_categorize (p : ℚ) : risk_cat p = categorize p 10 50 := rfl

/-- Claim C1: with the hardcoded thresholds low=10, high=50, the categorizer
returns Low exactly when pct < 10, Intermediate exactly when 10 ≤ pct < 50,
and High exactly when pct ≥ 50; in particular a percent exactly equal to a
threshold belongs to the higher band: risk_cat 10 = Intermediate and
risk_cat 50 = High. -/
theorem risk_cat_bands (p : ℚ) :
    (risk_cat p = .Low ↔ p < 10) ∧
    (risk_cat p = .Intermediate ↔ 10 ≤ p ∧ p < 50) ∧
    (risk_cat p = .High ↔ 50 ≤ p) ∧
    risk_cat (10 : ℚ) = .Intermediate ∧ risk_cat (50 : ℚ) = .High := by
  refine ⟨?_, ?_, ?_, by decide, by decide⟩ <;>
    · unfold risk_cat
      split_ifs with h1 h2 <;> simp_all <;> linarith

/-- Claim C2 counterexample: in the APP.py variant the reported value is the
raw model output with no clamp, so a raw value of 3/2 is reported as 3/2,
outside [0,1] — the clamp law fails for the APP.py variant. -/
theorem appReported_not_clamped :
    ¬ (0 ≤ appReported (3/2) ∧ appReported (3/2) ≤ 1) := by
  unfold appReported; norm_num

/-- Claim C2 (amended): in streamlit_app.py the reported probability is the
clamp max(0, min(r, 1)) of the raw output r, hence always in [0,1], and the
percent lies in [0,100]; APP.py reports the raw output unclamped. -/
theorem clampProb_in_unit (r : ℚ) :
    0 ≤ clampProb r ∧ clampProb r ≤ 1 ∧
    0 ≤ streamlitPct r ∧ streamlitPct r ≤ 100 := by
  have h1 : 0 ≤ clampProb r := le_max_left 0 _
  have h2 : clampProb r ≤ 1 := max_le (by norm_num) (min_le_right r 1)
  refine ⟨h1, h2, ?_, ?_⟩ <;> unfold streamlitPct <;> nlinarith

/-- Claim C3: for thresholds satisfying 0 ≤ lo ≤ hi ≤ 100 the categorizer is
total over the three pairwise-distinct bands, and its band rank (in the order
Low < Intermediate < High) is monotone non-decreasing in the percent. -/
theorem categorize_total_mono (p q lo hi : ℚ)
    (h0 : 0 ≤ lo) (hlh : lo ≤ hi) (h100 : hi ≤ 100) (hpq : p ≤ q) :
    (categorize p lo hi = .Low ∨ categorize p lo hi = .Intermediate ∨
      categorize p lo hi = .High) ∧
    (Category.Low ≠ .Intermediate ∧ Category.Intermediate ≠ .High ∧
      Category.Low ≠ .High) ∧
    catRank (categorize p lo hi) ≤ catRank (categorize q lo hi) := by
  refine ⟨?_, ⟨by decide, by decide, by decide⟩, ?_⟩
  · unfold categorize; split_ifs <;> simp
  · unfold categorize
    split_ifs <;> simp [catRank] <;> linarith

/-- Claim C3 witness: the categorizer at p = 5 ≤ q = 60 with thresholds
(10, 50). -/
theorem categorize_total_mono_witness :
    (categorize 5 10 50 = .Low ∨ categorize 5 10 50 = .Intermediate ∨
      categorize 5 10 50 = .High) ∧
    (Category.Low ≠ .Intermediate ∧ Category.Intermediate ≠ .High ∧
      Category.Low ≠ .High) ∧
    catRank (categorize 5 10 50) ≤ catRank (categorize 60 10 50) :=
  categorize_total_mono 5 60 10 50 (by norm_num) (by norm_num) (by norm_num)
    (by norm_num)

/-- Claim C4: thresholds violating 0 ≤ lo ≤ hi ≤ 100 make the checked
categorizer fail with a ConfigurationError before any categorization is
performed, and valid thresholds are passed through unchanged — never swapped
or auto-corrected. -/
theorem categorizeChecked_config_error (p lo hi : ℚ)
    (hbad : ¬ (0 ≤ lo ∧ lo ≤ hi ∧ hi ≤ 100)) :
    categorizeChecked p lo hi = .error .configurationError ∧
    (∀ lo₂ hi₂ : ℚ, (0 ≤ lo₂ ∧ lo₂ ≤ hi₂ ∧ hi₂ ≤ 100) →
      validateThresholds lo₂ hi₂ = .ok (lo₂, hi₂)) := by
  constructor
  · unfold categorizeChecked validateThresholds
    rw [if_neg hbad]
    rfl
  · intro lo₂ hi₂ hgood
    unfold validateThresholds
    rw [if_pos hgood]

/-- Claim C4 witness: the inverted thresholds (60, 40) of spec Scenario 5
produce a ConfigurationError, and the source's hardcoded thresholds (10, 50)
pass validation unchanged. -/
theorem categorizeChecked_config_error_witness :
    categorizeChecked 50 60 40 = .error .configurationError ∧
    (∀ lo₂ hi₂ : ℚ, (0 ≤ lo₂ ∧ lo₂ ≤ hi₂ ∧ hi₂ ≤ 100) →
      validateThresholds lo₂ hi₂ = .ok (lo₂, hi₂)) :=
  categorizeChecked_config_error 50 60 40 (by norm_num)

/-- An opaque classifier handle: a feature row to a raw class-1 score. -/
def Model : Type := List ℚ → ℚ

/-- The Python exceptions model loading can raise: FileNotFoundError for a
missing path, or an unpickling/deserialization exception (carrying its
message) for a present but corrupt artifact. -/
inductive PyError where
  | fileNotFoundError
  | unpicklingError (msg : String)
deriving DecidableEq, Repr

/-- What an abstract filesystem holds at a path: nothing, a corrupt
serialization (its load raises an exception with the given message), or a
valid model artifact. -/
inductive FileState where
  | missing
  | corrupt (msg : String)
  | artifact (m : Model)

/-- `joblib.load(path)` over an abstract filesystem: returns the artifact at
the path, raises FileNotFoundError when the path does not exist, and raises a
deserialization exception when the file is present but corrupt. -/
def loadModel (fs : String → FileState) (path : String) :
    Except PyError Model :=
  match fs path with
  | .artifact m => .ok m
  | .corrupt msg => .error (.unpicklingError msg)
  | .missing => .error .fileNotFoundError

/-- What the streamlit predict branch renders into the page: an error card or
a result card carrying the percent and the risk band. -/
inductive Render where
  | errorCard (msg : String)
  | resultCard (pct : ℚ) (cat : Category)

/-- The predict-button branch of streamlit_app.py (lines 333-417): load the
model inside try/except; on FileNotFoundError render the missing-model error
card (lines 411-415); on any other exception — a corrupt artifact included —
render the generic error card of the `except Exception` handler (lines
416-417); on success clamp the class-1 probability, take the percent,
categorize and render the result card. -/
def streamlitOnPredict (fs : String → FileState) (x : List ℚ) : Render :=
  match loadModel fs "best_model_stack.pkl" with
  | .error .fileNotFoundError =>
      .errorCard ("Model file `best_model_stack.pkl` was not found. " ++
        "Please upload the trained model to the app directory.")
  | .error (.unpicklingError msg) =>
      .errorCard ("An unexpected error occurred during prediction: **" ++
        msg ++ "**")
  | .ok m =>
      let pct := streamlitPct (m x)
      .resultCard pct (risk_cat pct)

/-- Outcome of importing the APP.py module: either the module is running with
a loaded model, or the unhandled exception escaped and the script crashed. -/
inductive StartupOutcome where
  | running (m : Model)
  | crashed (e : PyError)

/-- APP.py lines 8-9: `stacking_regressor = joblib.load(model_path)` at module
level, with no surrounding try/except — an error from loadModel escapes as an
uncaught exception, i.e. the script crashes at import time. -/
def appStartup (fs : String → FileState) : StartupOutcome :=
  match loadModel fs "best_model_stack.pkl" with
  | .ok m => .running m
  | .error e => .crashed e

/-- Claim C5 counterexample: when the model file is absent the APP.py variant
crashes at module import (the FileNotFoundError from joblib.load is never
caught), instead of reporting a handled user-visible error — so the claim
fails for the APP.py variant. -/
theorem appStartup_crashes_on_missing_model :
    appStartup (fun _ => .missing) = .crashed .fileNotFoundError := rfl

/-- Claim C5 (amended): in streamlit_app.py an unloadable model artifact is
caught and rendered as a user-visible error card — the missing-file case by
the FileNotFoundError handler, the corrupt-serialization case by the generic
exception handler — with no partial result card produced, for every input
vector; the APP.py variant instead crashes at import in both cases. -/
theorem streamlitOnPredict_model_unavailable (x : List ℚ) (msg : String) :
    streamlitOnPredict (fun _ => .missing) x =
      .errorCard ("Model file `best_model_stack.pkl` was not found. " ++
        "Please upload the trained model to the app directory.") ∧
    streamlitOnPredict (fun _ => .corrupt msg) x =
      .errorCard ("An unexpected error occurred during prediction: **" ++
        msg ++ "**") ∧
    (∀ pct cat,
      streamlitOnPredict (fun _ => .missing) x ≠ .resultCard pct cat) ∧
    (∀ pct cat,
      streamlitOnPredict (fun _ => .corrupt msg) x ≠ .resultCard pct cat) ∧
    appStartup (fun _ => .missing) = .crashed .fileNotFoundError ∧
    appStartup (fun _ => .corrupt msg) = .crashed (.unpicklingError msg) := by
  refine ⟨rfl, rfl, ?_, ?_, rfl, rfl⟩ <;>
    · intro pct cat h
      exact Render.noConfusion h

/-- streamlit_app.py line 164: selectbox with options [0, 1, 2]. -/
def stOrganFailure (v : ℤ) : Bool := v == 0 || v == 1 || v == 2

/-- streamlit_app.py lines 172-189: selectboxes with options [0, 1]. -/
def stBinary (v : ℤ) : Bool := v == 0 || v == 1

/-- streamlit_app.py lines 191-197: number_input with min_value=0,
max_value=120. -/
def stAge (v : ℤ) : Bool := decide (0 ≤ v) && decide (v ≤ 120)

/-- streamlit_app.py lines 199-214: number_inputs with min_value=0,
max_value=365. -/
def stDays (v : ℤ) : Bool := decide (0 ≤ v) && decide (v ≤ 365)

/-- The conjunction of the constraints the streamlit_app.py sidebar widgets
enforce on the seven inputs: an assignment can reach the scorer only when
every widget accepts its value. -/
def streamlitAccepts (ofn pf md bi age ofd oti : ℤ) : Bool :=
  stOrganFailure ofn && stBinary pf && stBinary md && stBinary bi &&
    stAge age && stDays ofd && stDays oti

/-- APP.py lines 28-30: number_input with only value=0 — no min_value and no
max_value, so every integer is accepted. -/
def appNumeric (_ : ℤ) : Bool := true

/-- The constraints the APP.py widgets enforce (lines 24-30): the three
selectboxes restrict their options, the three numeric inputs do not. -/
def appAccepts (ofn pf md bi age ofd oti : ℤ) : Bool :=
  stOrganFailure ofn && stBinary pf && stBinary md && stBinary bi &&
    appNumeric age && appNumeric ofd && appNumeric oti

/-- The declared domains of spec §3 for the seven inputs. -/
def declaredDomains (ofn pf md bi age ofd oti : ℤ) : Prop :=
  (ofn = 0 ∨ ofn = 1 ∨ ofn = 2) ∧ (pf = 0 ∨ pf = 1) ∧ (md = 0 ∨ md = 1) ∧
    (bi = 0 ∨ bi = 1) ∧ (0 ≤ age ∧ age ≤ 120) ∧ (0 ≤ ofd ∧ ofd ≤ 365) ∧
    (0 ≤ oti ∧ oti ≤ 365)

/-- Claim C6 counterexample: APP.py accepts age = 500 (its numeric inputs are
unbounded), although 500 is outside the declared domain [0, 120] — an
out-of-range value reaches the scorer, so the claim fails for the APP.py
variant. -/
theorem appAccepts_out_of_range :
    appAccepts 0 0 0 0 500 0 0 = true ∧
      ¬ declaredDomains 0 0 0 0 500 0 0 := by
  constructor
  · rfl
  · intro h
    rcases h with ⟨_, _, _, _, ⟨_, h120⟩, _⟩
    omega

/-- Claim C6 (amended): the streamlit_app.py widgets accept an assignment of
the seven inputs exactly when every field lies in its declared domain, so no
out-of-range value reaches the scorer there; the APP.py widgets enforce only
the three selectbox domains and leave age and the two day counts unbounded. -/
theorem streamlitAccepts_iff_domains (ofn pf md bi age ofd oti : ℤ) :
    (streamlitAccepts ofn pf md bi age ofd oti = true ↔
      declaredDomains ofn pf md bi age ofd oti) ∧
    (appAccepts ofn pf md bi age ofd oti = true ↔
      ((ofn = 0 ∨ ofn = 1 ∨ ofn = 2) ∧ (pf = 0 ∨ pf = 1) ∧
        (md = 0 ∨ md = 1) ∧ (bi = 0 ∨ bi = 1))) := by
  constructor
  · unfold streamlitAccepts stOrganFailure stBinary stAge stDays
      declaredDomains
    simp [Bool.and_eq_true, Bool.or_eq_true, and_assoc, or_assoc]
  · unfold appAccepts stOrganFailure stBinary appNumeric
    simp [Bool.and_eq_true, Bool.or_eq_true, and_assoc, or_assoc]

/-- streamlit_app.py lines 337-339: the feature array
`np.array([[OF_num, pancreatic_fis, pan_MDRO, blood_inf, age, OF_time,
time_sur]])` — a single row in that fixed order. -/
def streamlitX (ofn pf md bi age ofd oti : ℤ) : List (List ℤ) :=
  [[ofn, pf, md, bi, age, ofd, oti]]

/-- NumPy's reshape(1, -1) on a one-dimensional array: the same elements as a
single row. -/
def reshapeRow1 (l : List ℤ) : List (List ℤ) := [l]

/-- APP.py line 40: `np.array([OF_num, pancreatic_fis, pan_MDRO, blood_inf,
age, OF_time, time_sur]).reshape(1, -1)`. -/
def appInputArray (ofn pf md bi age ofd oti : ℤ) : List (List ℤ) :=
  reshapeRow1 [ofn, pf, md, bi, age, ofd, oti]

/-- Claim C7: the two variants assemble the identical single-row feature
vector in the identical fixed order; the builders are equal as functions of
the seven inputs. -/
theorem streamlitX_eq_appInputArray (ofn pf md bi age ofd oti : ℤ) :
    streamlitX ofn pf md bi age ofd oti =
      appInputArray ofn pf md bi age ofd oti := rfl

/-- Python's str.replace for a single-character pattern: every occurrence of
the character is replaced by the replacement, other characters are kept. -/
def replaceChar (a : Char) (r : List Char) (l : List Char) : List Char :=
  l.flatMap fun c => if c = a then r else [c]

/-- `_pdf_escape` of streamlit_app.py lines 246-248 at character level:
`text.replace("\\", "\\\\").replace("(", "\\(").replace(")", "\\)")`. -/
def pdfEscapeList (l : List Char) : List Char :=
  replaceChar ')' ['\\', ')']
    (replaceChar '(' ['\\', '('] (replaceChar '\\' ['\\', '\\'] l))

/-- `_pdf_escape` on strings. -/
def pdfEscape (s : String) : String := String.mk (pdfEscapeList s.data)

/-- Per-character escape code: a PDF-special character (backslash or a
parenthesis) is preceded by one backslash, any other character is kept as
is. -/
def escCode (c : Char) : List Char :=
  if c = '\\' ∨ c = '(' ∨ c = ')' then ['\\', c] else [c]

/-- Scan of a PDF string-literal body: true when every parenthesis in it is
preceded by an escaping backslash (each backslash consumes the following
character). -/
def okBody : List Char → Bool
  | [] => true
  | [c] => decide (c ≠ '(' ∧ c ≠ ')')
  | c :: c2 :: rest =>
      if c = '\\' then okBody rest
      else if c = '(' ∨ c = ')' then false
      else okBody (c2 :: rest)

/-- The fixed title block of generate_pdf (lines 258-262): two title lines
followed by one empty separator line. -/
def titleLines : List String :=
  ["Xiangya Hospital", "IPN Intra-Abdominal Hemorrhage Risk Report", ""]

/-- The text lines generate_pdf prints: the title block, then one
`key: value` line per record entry, in record order (lines 258-264). -/
def pdfLines (data : List (String × String)) : List String :=
  titleLines ++ data.map fun kv => kv.1 ++ ": " ++ kv.2

/-- The PDF content-stream operators generate_pdf emits. -/
inductive PdfOp where
  | beginText
  | endText
  | setFont (fontName : String) (size : ℕ)
  | setLeading (n : ℕ)
  | setMatrix (a b c d e f : ℤ)
  | star
  | showText (s : String)
deriving DecidableEq, Repr

/-- The exact line of the content stream each operator stands for. -/
def renderOp : PdfOp → String
  | .beginText => "BT"
  | .endText => "ET"
  | .setFont n s => "/" ++ n ++ " " ++ toString s ++ " Tf"
  | .setLeading n => toString n ++ " TL"
  | .setMatrix a b c d e f =>
      toString a ++ " " ++ toString b ++ " " ++ toString c ++ " " ++
        toString d ++ " " ++ toString e ++ " " ++ toString f ++ " Tm"
  | .star => "T*"
  | .showText s => "(" ++ s ++ ") Tj"

/-- The first-line / following-lines loop of generate_pdf (lines 272-279):
the first text line is shown directly, every further line is preceded by a
`T*` line advance. -/
def bodyOps : List String → List PdfOp
  | [] => []
  | l :: ls =>
      .showText (pdfEscape l) ::
        ls.flatMap fun l2 => [.star, .showText (pdfEscape l2)]

/-- The full operator list of the content stream (lines 266-281): begin text,
font /F1 size 12, leading 14, text matrix starting at (50, 800), the text
lines, end text. -/
def contentOps (data : List (String × String)) : List PdfOp :=
  [.beginText, .setFont "F1" 12, .setLeading 14, .setMatrix 1 0 0 1 50 800] ++
    bodyOps (pdfLines data) ++ [.endText]

/-- Line 282: the stream bytes are the operator lines joined by newlines. -/
def streamContent (data : List (String × String)) : String :=
  String.intercalate "\n" ((contentOps data).map renderOp)

/-- Interpreter for the emitted operators, tracking the leading (TL) and the
vertical position set by Tm and advanced by `T*`; returns each shown string
with the vertical position it is painted at. -/
def execOps : List PdfOp → ℤ → ℤ → List (String × ℤ)
  | [], _, _ => []
  | .setLeading n :: rest, _, y => execOps rest (n : ℤ) y
  | .setMatrix _ _ _ _ _ f :: rest, tl, _ => execOps rest tl f
  | .star :: rest, tl, y => execOps rest tl (y - tl)
  | .showText s :: rest, tl, y => (s, y) :: execOps rest tl y
  | .beginText :: rest, tl, y => execOps rest tl y
  | .endText :: rest, tl, y => execOps rest tl y
  | .setFont _ _ :: rest, tl, y => execOps rest tl y

/-- The painted text lines of the generated page with their vertical
positions. -/
def placedTexts (data : List (String × String)) : List (String × ℤ) :=
  execOps (contentOps data) 0 0

/-- Reference layout: each successive line one leading below the previous
position. -/
def placedFrom : List String → ℤ → ℤ → List (String × ℤ)
  | [], _, _ => []
  | l :: ls, tl, y => (pdfEscape l, y - tl) :: placedFrom ls tl (y - tl)

/-- The kid list of the /Pages object (line 286): exactly the one page,
object 3. -/
def pageKids : List ℕ := [3]

/-- The fixed page size of the /Page object (line 287): MediaBox
[0 0 595 842], A4 in points. -/
def mediaBox : ℤ × ℤ × ℤ × ℤ := (0, 0, 595, 842)

/-- Object 1 (line 285): the document catalog. -/
def obj1String : String := "1 0 obj\n<< /Type /Catalog /Pages 2 0 R >>\nendobj\n"

/-- Object 2 (line 286): the page tree, kids and count from pageKids. -/
def obj2String : String :=
  "2 0 obj\n<< /Type /Pages /Kids [" ++
    String.intercalate " " (pageKids.map fun n => toString n ++ " 0 R") ++
    "] /Count " ++ toString pageKids.length ++ " >>\nendobj\n"

/-- Object 3 (line 287): the single page with its fixed MediaBox. -/
def obj3String : String :=
  "3 0 obj\n<< /Type /Page /Parent 2 0 R /MediaBox [" ++
    toString mediaBox.1 ++ " " ++ toString mediaBox.2.1 ++ " " ++
    toString mediaBox.2.2.1 ++ " " ++ toString mediaBox.2.2.2 ++
    "] /Contents 4 0 R /Resources << /Font << /F1 5 0 R >> >>\nendobj\n"

/-- Object 4 (lines 288-294): the content stream with its byte length. -/
def obj4String (data : List (String × String)) : String :=
  "4 0 obj\n<< /Length " ++ toString (streamContent data).length ++
    " >>\nstream\n" ++ streamContent data ++ "\nendstream\nendobj\n"

/-- Object 5 (line 295): the Helvetica font. -/
def obj5String : String :=
  "5 0 obj\n<< /Type /Font /Subtype /Type1 /BaseFont /Helvetica >>\nendobj\n"

/-- Line 297: the object list. -/
def pdfObjects (data : List (String × String)) : List String :=
  [obj1String, obj2String, obj3String, obj4String data, obj5String]

/-- Line 299: the PDF header. -/
def pdfHeader : String := "%PDF-1.4\n"

/-- Lines 300-305: the running byte offsets of the objects, starting after
the header. -/
def offsetsFrom : ℕ → List String → List ℕ
  | _, [] => []
  | cur, o :: rest => cur :: offsetsFrom (cur + o.length) rest

/-- Line 307: the byte offset of the xref table. -/
def xrefOffset (objs : List String) : ℕ :=
  pdfHeader.length + (objs.map String.length).sum

/-- Python's f-string `f"{off:010d}"`: decimal digits left-padded with zeros
to width 10. -/
def pad10 (n : ℕ) : String :=
  String.mk (List.replicate (10 - (toString n).length) '0') ++ toString n

/-- Lines 308-311: the xref table. -/
def xrefSection (objs : List String) : String :=
  "xref\n0 6\n" ++ "0000000000 65535 f \n" ++
    String.join ((offsetsFrom pdfHeader.length objs).map fun off =>
      pad10 off ++ " 00000 n \n")

/-- Lines 313-317: the trailer. -/
def trailerSection (objs : List String) : String :=
  "trailer\n<< /Size 6 /Root 1 0 R >>\nstartxref\n" ++
    toString (xrefOffset objs) ++ "\n%%EOF\n"

/-- generate_pdf (lines 251-320): the full byte string of the report —
header, objects, xref table, trailer. -/
def generate_pdf (data : List (String × String)) : String :=
  pdfHeader ++ String.join (pdfObjects data) ++
    xrefSection (pdfObjects data) ++ trailerSection (pdfObjects data)

/-- Fidelity check against the source: object 2 is the exact literal of
streamlit_app.py line 286. -/
theorem obj2String_literal :
    obj2String = "2 0 obj\n<< /Type /Pages /Kids [3 0 R] /Count 1 >>\nendobj\n" := rfl

/-- Fidelity check against the source: object 3 is the exact literal of
streamlit_app.py line 287. -/
theorem obj3String_literal :
    obj3String = "3 0 obj\n<< /Type /Page /Parent 2 0 R /MediaBox [0 0 595 842] /Contents 4 0 R /Resources << /Font << /F1 5 0 R >> >>\nendobj\n" := rfl

theorem placedFrom_length (ls : List String) (tl y : ℤ) :
    (placedFrom ls tl y).length = ls.length := by
  induction ls generalizing y with
  | nil => rfl
  | cons l ls ih => simp [placedFrom, ih]

theorem execOps_tail (ls : List String) (tl y : ℤ) :
    execOps ((ls.flatMap fun l => [.star, .showText (pdfEscape l)]) ++
      [.endText]) tl y = placedFrom ls tl y := by
  induction ls generalizing y with
  | nil => rfl
  | cons l ls ih =>
    simp only [List.flatMap_cons, List.cons_append, List.append_assoc]
    show execOps (.star :: .showText (pdfEscape l) :: _) tl y = _
    rw [execOps, execOps, placedFrom]
    exact congrArg _ (ih (y - tl))

theorem placedTexts_eq (data : List (String × String)) :
    placedTexts data = (pdfEscape "Xiangya Hospital", 800) ::
      placedFrom ("IPN Intra-Abdominal Hemorrhage Risk Report" :: "" ::
        data.map fun kv => kv.1 ++ ": " ++ kv.2) 14 800 := by
  unfold placedTexts contentOps pdfLines titleLines bodyOps
  simp only [List.cons_append, List.nil_append, List.flatMap_cons,
    List.append_assoc]
  rw [execOps, execOps, execOps, execOps, execOps]
  refine congrArg _ ?_
  have h := execOps_tail ("IPN Intra-Abdominal Hemorrhage Risk Report" ::
    "" :: data.map fun kv => kv.1 ++ ": " ++ kv.2) 14 800
  simpa [List.flatMap_cons, List.append_assoc] using h

theorem placedFrom_getD (ls : List String) (tl y : ℤ) (i : ℕ)
    (hi : i < ls.length) :
    (placedFrom ls tl y).getD i ("", 0) =
      (pdfEscape (ls.getD i ""), y - tl * ((i : ℤ) + 1)) := by
  induction ls generalizing y i with
  | nil => simp at hi
  | cons l ls ih =>
    cases i with
    | zero =>
      rw [placedFrom, List.getD_cons_zero, List.getD_cons_zero]
      norm_num
    | succ j =>
      have hj : j < ls.length := by simpa using hi
      rw [placedFrom, List.getD_cons_succ, List.getD_cons_succ, ih _ _ hj]
      push_cast
      ring_nf

theorem placedTexts_getD (data : List (String × String)) (i : ℕ)
    (hi : i < 3 + data.length) :
    (placedTexts data).getD i ("", 0) =
      (pdfEscape ((pdfLines data).getD i ""), 800 - 14 * (i : ℤ)) := by
  rw [placedTexts_eq]
  cases i with
  | zero => simp [pdfLines, titleLines]
  | succ j =>
    have hj : j < ("IPN Intra-Abdominal Hemorrhage Risk Report" :: "" ::
        data.map fun kv => kv.1 ++ ": " ++ kv.2).length := by
      simp at hi ⊢
      omega
    rw [List.getD_cons_succ, placedFrom_getD _ _ _ _ hj]
    have hlines : pdfLines data =
        "Xiangya Hospital" :: "IPN Intra-Abdominal Hemorrhage Risk Report" ::
          "" :: data.map fun kv => kv.1 ++ ": " ++ kv.2 := rfl
    rw [hlines, List.getD_cons_succ]
    push_cast
    ring_nf

theorem getD_map_entry (data : List (String × String)) (j : ℕ)
    (hj : j < data.length) :
    (data.map fun kv => kv.1 ++ ": " ++ kv.2).getD j "" =
      (data.getD j ("", "")).1 ++ ": " ++ (data.getD j ("", "")).2 := by
  induction data generalizing j with
  | nil => simp at hj
  | cons kv tl ih =>
    cases j with
    | zero => simp
    | succ j2 =>
      simp only [List.map_cons, List.getD_cons_succ]
      exact ih j2 (by simpa using hj)

/-- Claim C8: the generated PDF has exactly one page of the fixed size
595 x 842 points; its text stream begins with the two title lines (then one
blank separator line) and carries exactly one escaped "Key: Value" line per
record entry, in record order, at vertical positions 800 - 14*i (line pitch
14pt), so no two lines share a vertical position. -/
theorem generate_pdf_layout (data : List (String × String)) (j i₁ i₂ : ℕ)
    (hj : j < data.length) (h₁ : i₁ < 3 + data.length)
    (h₂ : i₂ < 3 + data.length) (hne : i₁ ≠ i₂) :
    pageKids.length = 1 ∧
    obj3String = "3 0 obj\n<< /Type /Page /Parent 2 0 R /MediaBox [0 0 595 842] /Contents 4 0 R /Resources << /Font << /F1 5 0 R >> >>\nendobj\n" ∧
    (placedTexts data).length = 3 + data.length ∧
    (placedTexts data).getD 0 ("", 0) = (pdfEscape "Xiangya Hospital", 800) ∧
    (placedTexts data).getD 1 ("", 0) =
      (pdfEscape "IPN Intra-Abdominal Hemorrhage Risk Report", 786) ∧
    (placedTexts data).getD (3 + j) ("", 0) =
      (pdfEscape ((data.getD j ("", "")).1 ++ ": " ++ (data.getD j ("", "")).2),
        800 - 14 * ((3 : ℤ) + (j : ℤ))) ∧
    ((placedTexts data).getD i₁ ("", 0)).2 ≠
      ((placedTexts data).getD i₂ ("", 0)).2 := by
  have hlen : (placedTexts data).length = 3 + data.length := by
    rw [placedTexts_eq]
    simp [placedFrom_length]
    omega
  refine ⟨rfl, rfl, hlen, ?_, ?_, ?_, ?_⟩
  · rw [placedTexts_getD data 0 (by omega)]
    norm_num
    rfl
  · rw [placedTexts_getD data 1 (by omega)]
    norm_num
    rfl
  · have h3j : 3 + j < 3 + data.length := by omega
    rw [placedTexts_getD data (3 + j) h3j]
    have hentry : (pdfLines data).getD (3 + j) "" =
        (data.getD j ("", "")).1 ++ ": " ++ (data.getD j ("", "")).2 := by
      have hlines : pdfLines data =
          "Xiangya Hospital" ::
            "IPN Intra-Abdominal Hemorrhage Risk Report" :: "" ::
            data.map fun kv => kv.1 ++ ": " ++ kv.2 := rfl
      have h3 : 3 + j = j + 1 + 1 + 1 := by omega
      rw [hlines, h3, List.getD_cons_succ, List.getD_cons_succ,
        List.getD_cons_succ]
      exact getD_map_entry data j hj
    rw [hentry]
    push_cast
    ring_nf
  · rw [placedTexts_getD data i₁ h₁, placedTexts_getD data i₂ h₂]
    simp only [ne_eq]
    intro hcontra
    omega

/-- Claim C8 witness: the record [("A", "1")] — 4 placed lines, titles at 800
and 786, the entry "A: 1" at 758, and distinct vertical positions for lines
0 and 3. -/
theorem generate_pdf_layout_witness :
    pageKids.length = 1 ∧
    obj3String = "3 0 obj\n<< /Type /Page /Parent 2 0 R /MediaBox [0 0 595 842] /Contents 4 0 R /Resources << /Font << /F1 5 0 R >> >>\nendobj\n" ∧
    (placedTexts [("A", "1")]).length = 3 + ([("A", "1")] : List (String × String)).length ∧
    (placedTexts [("A", "1")]).getD 0 ("", 0) =
      (pdfEscape "Xiangya Hospital", 800) ∧
    (placedTexts [("A", "1")]).getD 1 ("", 0) =
      (pdfEscape "IPN Intra-Abdominal Hemorrhage Risk Report", 786) ∧
    (placedTexts [("A", "1")]).getD (3 + 0) ("", 0) =
      (pdfEscape ((([("A", "1")] : List (String × String)).getD 0 ("", "")).1 ++ ": " ++
        (([("A", "1")] : List (String × String)).getD 0 ("", "")).2),
        800 - 14 * ((3 : ℤ) + ((0 : ℕ) : ℤ))) ∧
    ((placedTexts [("A", "1")]).getD 0 ("", 0)).2 ≠
      ((placedTexts [("A", "1")]).getD 3 ("", 0)).2 :=
  generate_pdf_layout [("A", "1")] 0 0 3 (by norm_num) (by norm_num)
    (by norm_num) (by norm_num)

/-- Claim C9: generate_pdf is a pure function of the report record — it reads
no clock, randomness, or global state — so two runs on identical records
(identical timestamp and session identifier entries included) produce
byte-identical PDF output. -/
theorem generate_pdf_deterministic (d₁ d₂ : List (String × String))
    (h : d₁ = d₂) : generate_pdf d₁ = generate_pdf d₂ := by rw [h]

/-- Claim C9 witness: two runs on the same concrete one-entry record. -/
theorem generate_pdf_deterministic_witness :
    ([("Session ID", "S-1")] : List (String × String)) =
      [("Session ID", "S-1")] ∧
    generate_pdf [("Session ID", "S-1")] =
      generate_pdf [("Session ID", "S-1")] :=
  ⟨rfl, generate_pdf_deterministic _ _ rfl⟩

theorem pdfEscapeList_eq_flatMap (l : List Char) :
    pdfEscapeList l = l.flatMap escCode := by
  induction l with
  | nil => rfl
  | cons c l ih =>
    unfold pdfEscapeList replaceChar at ih ⊢
    simp only [List.flatMap_cons, List.flatMap_append]
    rw [ih]
    congr 1
    by_cases h1 : c = '\\'
    · subst h1; rfl
    · by_cases h2 : c = '('
      · subst h2; rfl
      · by_cases h3 : c = ')'
        · subst h3; rfl
        · simp [escCode, h1, h2, h3]

theorem flatMap_escCode_inj (l₁ : List Char) : ∀ l₂ : List Char,
    l₁.flatMap escCode = l₂.flatMap escCode → l₁ = l₂ := by
  induction l₁ with
  | nil =>
    intro l₂ h
    cases l₂ with
    | nil => rfl
    | cons c2 t2 =>
      exfalso
      rw [List.flatMap_nil, List.flatMap_cons] at h
      unfold escCode at h
      split at h <;> simp at h
  | cons c1 t1 ih =>
    intro l₂ h
    cases l₂ with
    | nil =>
      exfalso
      rw [List.flatMap_cons, List.flatMap_nil] at h
      unfold escCode at h
      split at h <;> simp at h
    | cons c2 t2 =>
      rw [List.flatMap_cons, List.flatMap_cons] at h
      unfold escCode at h
      by_cases s1 : c1 = '\\' ∨ c1 = '(' ∨ c1 = ')' <;>
        by_cases s2 : c2 = '\\' ∨ c2 = '(' ∨ c2 = ')'
      · rw [if_pos s1, if_pos s2] at h
        simp only [List.cons_append, List.nil_append, List.cons.injEq] at h
        rw [h.2.1, ih t2 h.2.2]
      · rw [if_pos s1, if_neg s2] at h
        simp only [List.cons_append, List.nil_append, List.cons.injEq] at h
        exact absurd (Or.inl h.1.symm) s2
      · rw [if_neg s1, if_pos s2] at h
        simp only [List.cons_append, List.nil_append, List.cons.injEq] at h
        exact absurd (Or.inl h.1) s1
      · rw [if_neg s1, if_neg s2] at h
        simp only [List.cons_append, List.nil_append, List.cons.injEq] at h
        rw [h.1, ih t2 h.2]

theorem okBody_flatMap_escCode (l : List Char) :
    okBody (l.flatMap escCode) = true := by
  induction l with
  | nil => rfl
  | cons c l ih =>
    rw [List.flatMap_cons]
    by_cases hs : c = '\\' ∨ c = '(' ∨ c = ')'
    · rw [show escCode c = ['\\', c] from by unfold escCode; rw [if_pos hs]]
      simpa [okBody] using ih
    · rw [show escCode c = [c] from by unfold escCode; rw [if_neg hs]]
      push_neg at hs
      cases hrest : l.flatMap escCode with
      | nil => simp [okBody, hs.2.1, hs.2.2]
      | cons x xs =>
        rw [hrest] at ih
        simp only [List.cons_append, List.nil_append]
        simp [okBody, hs.1, hs.2.1, hs.2.2, ih]

theorem contentOps_showText (data : List (String × String)) (t : String)
    (hmem : PdfOp.showText t ∈ contentOps data) : ∃ l, t = pdfEscape l := by
  unfold contentOps at hmem
  rw [List.mem_append, List.mem_append] at hmem
  rcases hmem with (hpre | hbody) | hpost
  · simp at hpre
  · have : ∀ ls : List String, PdfOp.showText t ∈ bodyOps ls →
        ∃ l, t = pdfEscape l := by
      intro ls
      induction ls with
      | nil => intro h; simp [bodyOps] at h
      | cons l ls ih2 =>
        intro h
        unfold bodyOps at h
        rcases List.mem_cons.mp h with heq | htail
        · exact ⟨l, (PdfOp.showText.injEq _ _).mp heq⟩
        · rcases List.mem_flatMap.mp htail with ⟨l2, _, hin⟩
          rcases List.mem_cons.mp hin with h1 | h1
          · exact absurd h1 (by simp)
          · rcases List.mem_cons.mp h1 with h2 | h2
            · exact ⟨l2, (PdfOp.showText.injEq _ _).mp h2⟩
            · simp at h2
    exact this _ hbody
  · simp at hpost

/-- Claim C10: _pdf_escape encodes each character independently — every
backslash and parenthesis of the input is preceded by exactly one escaping
backslash and nothing is double-escaped (the per-character code escCode
applied across the string); the escape is injective; and every string shown
by a `(...) Tj` operator of the content stream is a well-formed PDF string
body whose parentheses are all escaped (okBody). -/
theorem pdf_escape_correct (s s₁ s₂ t : String)
    (data : List (String × String))
    (hinj : pdfEscape s₁ = pdfEscape s₂)
    (hmem : PdfOp.showText t ∈ contentOps data) :
    (pdfEscape s).data = s.data.flatMap escCode ∧
    s₁ = s₂ ∧
    okBody (pdfEscape s).data = true ∧
    okBody t.data = true := by
  have hdata : ∀ u : String, (pdfEscape u).data = u.data.flatMap escCode := by
    intro u
    show pdfEscapeList u.data = u.data.flatMap escCode
    exact pdfEscapeList_eq_flatMap u.data
  refine ⟨hdata s, ?_, ?_, ?_⟩
  · have h1 : (pdfEscape s₁).data = (pdfEscape s₂).data := by rw [hinj]
    rw [hdata s₁, hdata s₂] at h1
    have h2 := flatMap_escCode_inj s₁.data s₂.data h1
    cases s₁ with
    | mk d1 =>
      cases s₂ with
      | mk d2 =>
        have h3 : d1 = d2 := by simpa using h2
        rw [h3]
  · rw [hdata s]
    exact okBody_flatMap_escCode s.data
  · rcases contentOps_showText data t hmem with ⟨l, hl⟩
    rw [hl, hdata l]
    exact okBody_flatMap_escCode l.data

/-- Claim C10 witness: the input "a\(b)" (escaped to "a\\\(b\)"), injectivity
applied at "x", and the title line shown by the first Tj of the record
[("k", "v")]. -/
theorem pdf_escape_correct_witness :
    (pdfEscape "a\\(b)").data = ("a\\(b)" : String).data.flatMap escCode ∧
    ("x" : String) = "x" ∧
    okBody (pdfEscape "a\\(b)").data = true ∧
    okBody ("Xiangya Hospital" : String).data = true :=
  pdf_escape_correct "a\\(b)" "x" "x" "Xiangya Hospital" [("k", "v")] rfl
    (by unfold contentOps bodyOps pdfLines titleLines
        simp [pdfEscape, pdfEscapeList, replaceChar])
